import Mathlib

/-!
Verification of `cpu/misc.py`: environment reporting, random seeding,
symlink creation and small-table formatting utilities.

The Python functions are shallowly embedded as Lean functions.  Global
process state (RNG seeds, environment variables, backend flags) is made
explicit as a record threaded through `set_random_seed`; the filesystem
is an association list from paths to entries threaded through `symlink`.
Randomness (`random.randint`) is modelled by an explicit parameter
`drawn`, quantified over the range the call guarantees.
-/

/-- Python values that can be passed as the `seed` argument of
`set_random_seed`: `None`, an `int`, or a malformed (non-integer) value
such as a `str`. -/
inductive SeedArg where
  | pyNone : SeedArg
  | pyInt : Int → SeedArg
  | pyStr : String → SeedArg
deriving DecidableEq, Repr

/-- Python exceptions that the embedded code can raise. -/
inductive PyError where
  | typeError : PyError
  | valueError : PyError
deriving DecidableEq, Repr

/-- Value of `np.iinfo(np.uint32).max`, i.e. `2^32 - 1`. -/
def maxSeedValue : Nat := 2 ^ 32 - 1

/-- Value of `np.iinfo(np.uint32).min`, i.e. `0`. -/
def minSeedValue : Nat := 0

/-- Python `str()` of a seed argument, as used by the f-string in the
warning message of `set_random_seed`. -/
def seedStr : SeedArg → String
  | .pyNone => "None"
  | .pyInt i => toString i
  | .pyStr s => s

/-- Warning message emitted by `set_random_seed` for an invalid seed
(line 80 of misc.py): it names the rejected value and the replacement. -/
def invalidSeedWarning (seed : SeedArg) (newSeed : Nat) : String :=
  "Got invalid seed: " ++ seedStr seed ++ ", use the generated seed: " ++ toString newSeed

/-- Lines 78-81 of misc.py: seed validation.  Mirrors
`if seed is None or not (min_seed_value <= seed <= max_seed_value)`.
For `None` the `or` short-circuits; for an `int` the chained comparison
is evaluated; for a non-integer the comparison `0 <= seed` raises
`TypeError` (Python 3 forbids ordering `int` against e.g. `str`).
`drawn` is the value returned by `random.randint(min, max)`.
Returns the resolved seed together with the list of warnings logged. -/
def resolveSeed (seed : SeedArg) (drawn : Nat) : Except PyError (Int × List String) :=
  match seed with
  | .pyNone => .ok ((drawn : Int), [invalidSeedWarning .pyNone drawn])
  | .pyInt i =>
      if (minSeedValue : Int) ≤ i ∧ i ≤ (maxSeedValue : Int) then
        .ok (i, [])
      else
        .ok ((drawn : Int), [invalidSeedWarning (.pyInt i) drawn])
  | .pyStr _ => .error .typeError

/-- Process-wide mutable state touched by `set_random_seed`: the three
RNG seeds (`random`, `np.random`, `torch`), the `PYTHONHASHSEED`
environment variable, and the two cudnn backend flags.  A seed field is
`none` while the corresponding generator has not been explicitly
seeded. -/
structure GlobalState where
  randomSeed : Option Int
  npSeed : Option Int
  torchSeed : Option Int
  pythonHashSeed : Option String
  cudnnBenchmark : Bool
  cudnnDeterministic : Bool
deriving DecidableEq, Repr

/-- Process state at interpreter start: nothing seeded, no
`PYTHONHASHSEED` exported, both cudnn flags at their PyTorch defaults
(`benchmark = False`, `deterministic = False`). -/
def initialState : GlobalState :=
  { randomSeed := none, npSeed := none, torchSeed := none,
    pythonHashSeed := none, cudnnBenchmark := false, cudnnDeterministic := false }

/-- Embedding of `set_random_seed(seed, deterministic)` (lines 70-88 of
misc.py).  After resolving the seed it calls `random.seed`,
`np.random.seed`, `torch.manual_seed` with the same value, sets
`os.environ["PYTHONHASHSEED"] = str(seed)`, and, when `deterministic`
is true, sets `torch.backends.cudnn.benchmark = False` and
`torch.backends.cudnn.deterministic = True`.  Returns the new state and
the warnings logged. -/
def set_random_seed (seed : SeedArg) (dt : Bool) (drawn : Nat)
    (st : GlobalState) : Except PyError (GlobalState × List String) := do
  let (s, warnings) ← resolveSeed seed drawn
  let st := { st with randomSeed := some s, npSeed := some s, torchSeed := some s,
                      pythonHashSeed := some (toString s) }
  let st := if dt then { st with cudnnBenchmark := false, cudnnDeterministic := true } else st
  .ok (st, warnings)

/-- Seed arguments that respect the `Optional[int]` annotation of
`set_random_seed`. -/
def SeedArg.isIntOrNone : SeedArg → Bool
  | .pyStr _ => false
  | _ => true

/-- Filesystem entries, as `symlink` in misc.py can meet them: a regular
file, a directory, or a symbolic link to some target path (the target
need not exist, which models a broken link). -/
inductive FSEntry where
  | file : FSEntry
  | directory : FSEntry
  | symlinkTo : String → FSEntry
deriving DecidableEq, Repr

/-- OS-level exceptions raised by the filesystem calls in misc.py. -/
inductive OSError where
  | fileExistsError : OSError
  | isADirectoryError : OSError
  | fileNotFoundError : OSError
deriving DecidableEq, Repr

/-- A filesystem: a finite map from path to entry, as an association
list. -/
abbrev FileSystem := List (String × FSEntry)

/-- Embedding of `os.path.lexists(p)`: true when `p` names any entry,
including a broken symlink (lexists does not follow links). -/
def lexists (fs : FileSystem) (p : String) : Bool :=
  (fs.lookup p).isSome

/-- Embedding of `os.remove(p)` on POSIX: raises `FileNotFoundError`
when `p` does not exist, raises `IsADirectoryError` when `p` is a
directory, and otherwise unlinks the entry (for a symlink it removes
the link itself, not the target). -/
def osRemove (fs : FileSystem) (p : String) : Except OSError FileSystem :=
  match fs.lookup p with
  | none => .error .fileNotFoundError
  | some .directory => .error .isADirectoryError
  | some _ => .ok (fs.filter (fun e => e.1 != p))

/-- Embedding of `os.symlink(src, dst)`: raises `FileExistsError` when
`dst` already names any entry, otherwise creates a symlink entry at
`dst` pointing to `src` (no existence check on `src`). -/
def osSymlink (fs : FileSystem) (src dst : String) : Except OSError FileSystem :=
  if lexists fs dst then .error .fileExistsError
  else .ok (fs ++ [(dst, .symlinkTo src)])

/-- Embedding of `symlink(src, dst, overwrite)` (lines 91-101 of
misc.py): `if os.path.lexists(dst) and overwrite: os.remove(dst)`,
then `os.symlink(src, dst)`.  The result pairs the raised exception
(if any) with the filesystem as it stands when the call returns or the
exception propagates. -/
def symlink (src dst : String) (overwrite : Bool) (fs : FileSystem) :
    Option OSError × FileSystem :=
  if lexists fs dst && overwrite then
    match osRemove fs dst with
    | .error e => (some e, fs)
    | .ok fs1 =>
        match osSymlink fs1 src dst with
        | .error e => (some e, fs1)
        | .ok fs2 => (none, fs2)
  else
    match osSymlink fs src dst with
    | .error e => (some e, fs)
    | .ok fs2 => (none, fs2)

/-- Python scalar values appearing in the dictionaries handed to
`create_small_table`.  A float is carried as the rational number it
denotes (the values of interest here, such as 0.5 and 0.8, are spoken
of by their decimal value). -/
inductive PyScalar where
  | int : Int → PyScalar
  | float : Rat → PyScalar
  | str : String → PyScalar
deriving DecidableEq, Repr

/-- A Python dict of string keys and scalar values, as an association
list in insertion order (Python dicts preserve insertion order). -/
abbrev PyDict := List (String × PyScalar)

/-- String of `n` spaces. -/
def spaces (n : Nat) : String :=
  String.mk (List.replicate n ' ')

/-- Left-pad a digit string with zeros to length 3. -/
def pad3 (s : String) : String :=
  if s.length ≥ 3 then s else String.mk (List.replicate (3 - s.length) '0') ++ s

/-- Render `n` thousandths as a fixed-point numeral with 3 decimal
places, e.g. `500 ↦ "0.500"`. -/
def thousandthsStr (n : Int) : String :=
  let sign := if n < 0 then "-" else ""
  let m := n.natAbs
  sign ++ toString (m / 1000) ++ "." ++ pad3 (toString (m % 1000))

/-- Modelled from the spec: the `%.3f`-style float format selected by
`floatfmt=".3f"` in `create_small_table`; the `tabulate` library that
implements it is a third-party dependency, not part of this
repository.  The value is scaled to thousandths, rounded to the
nearest integer (ties away from zero, immaterial for the exact decimal
values at issue), and printed with exactly 3 decimal places. -/
def format3f (q : Rat) : String :=
  if q < 0 then thousandthsStr (-⌊(-q) * 1000 + 1/2⌋)
  else thousandthsStr ⌊q * 1000 + 1/2⌋

/-- Cell text of one scalar under `floatfmt=".3f"`: floats go through
`format3f`, ints and strings print as themselves. -/
def renderCell : PyScalar → String
  | .int i => toString i
  | .float q => format3f q
  | .str s => s

/-- Python `str.center`-style centring within width `w`: the extra
space of an odd pad goes to the right. -/
def center (w : Nat) (s : String) : String :=
  if s.length ≥ w then s
  else
    let pad := w - s.length
    spaces (pad / 2) ++ s ++ spaces (pad - pad / 2)

/-- String of `n` dashes. -/
def dashes (n : Nat) : String :=
  String.mk (List.replicate n '-')

/-- Modelled from the spec: the `tabulate(..., tablefmt="pipe",
stralign="center", numalign="center")` call of `create_small_table`;
`tabulate` is a third-party dependency, not part of this repository.
A pipe-format table has a header row, an alignment row whose `:---:`
markers record the centre alignment, and here a single data row; every
cell is centred in its column, whose width is the larger of the header
and the cell text, and cells are joined by `|` delimiters with one
space of padding on each side. -/
def tabulatePipe (headers : List String) (row : List String) : String :=
  let widths := List.zipWith (fun h c => max h.length c.length) headers row
  let headerLine :=
    "| " ++ String.intercalate " | " (List.zipWith center widths headers) ++ " |"
  let alignLine :=
    "|" ++ String.intercalate "|" (widths.map (fun w => ":" ++ dashes w ++ ":")) ++ "|"
  let rowLine :=
    "| " ++ String.intercalate " | " (List.zipWith center widths row) ++ " |"
  headerLine ++ "\n" ++ alignLine ++ "\n" ++ rowLine

/-- Line 111 of misc.py: `keys, values = tuple(zip(*small_dict.items()))`.
For an empty dict, `zip()` yields an empty tuple and unpacking two
names from it raises `ValueError`; otherwise it yields exactly the
tuple of keys and the tuple of values, in the dict's iteration
order. -/
def unzipPairs (items : PyDict) : Except PyError (List String × List PyScalar) :=
  match items with
  | [] => .error .valueError
  | l => .ok (l.map Prod.fst, l.map Prod.snd)

/-- Embedding of `create_small_table(small_dict)` (lines 104-120 of
misc.py): unzip the items, then tabulate one data row under the keys
as headers. -/
def create_small_table (smallDict : PyDict) : Except PyError String := do
  let (keys, values) ← unzipPairs smallDict
  .ok (tabulatePipe keys (values.map renderCell))

/-- Embedding of `small_dict.items()` at the state level: a read-only
view, returned together with the dict as the call leaves it. -/
def dictItems (d : PyDict) : PyDict × PyDict :=
  (d, d)

/-- State-threaded run of `create_small_table`: the second component is
the caller's dict as the call leaves it, tracking any mutation the
embedded operations perform on it. -/
def create_small_table_run (d : PyDict) : Except PyError String × PyDict :=
  let (items, d) := dictItems d
  match unzipPairs items with
  | .error e => (.error e, d)
  | .ok (keys, values) => (.ok (tabulatePipe keys (values.map renderCell)), d)

/-- Introspection data that `collect_env` (lines 17-66 of misc.py)
reads from the running process: platform and library versions, CUDA
availability, and the name of each CUDA device by index
(`deviceNames.length` plays `torch.cuda.device_count()`, and the entry
at index `k` plays `torch.cuda.get_device_name(k)`). -/
structure EnvInput where
  platform : String
  pythonVersion : String
  numpyVersion : String
  cudaAvailable : Bool
  deviceNames : List String
  torchVersion : String
  torchvisionVersion : Option String
  opencvVersion : Option String
  torchConfig : String
deriving DecidableEq, Repr

/-- Python `str()` of a bool, as `tabulate` renders the
`cuda_available` value. -/
def pyBoolStr (b : Bool) : String :=
  if b then "True" else "False"

/-- Embedding of the `devices = defaultdict(list); devices[name].append(str(k))`
step: append `id` to the list held under `name`, creating the key at
the end on first use (Python dicts keep insertion order). -/
def addDevice (devices : List (String × List String)) (name id : String) :
    List (String × List String) :=
  if devices.any (fun p => p.1 == name) then
    devices.map (fun p => if p.1 == name then (p.1, p.2 ++ [id]) else p)
  else
    devices ++ [(name, [id])]

/-- Lines 43-46 of misc.py: group device indices by device name, in
order of first appearance. -/
def collectDevices (names : List String) : List (String × List String) :=
  names.enum.foldl (fun acc p => addDevice acc p.2 (toString p.1)) []

/-- Lines 47-48 of misc.py: one `env_info` entry per device name, whose
label is `"GPU "` followed by the comma-joined indices. -/
def gpuEntries (names : List String) : List (String × String) :=
  (collectDevices names).map (fun p => ("GPU " ++ String.intercalate "," p.2, p.1))

/-- The `env_info` list of (label, value) pairs built by `collect_env`
(lines 35-62 of misc.py); the returned string is `tabulate(env_info)`
followed by the torch build configuration. -/
def collect_env_info (env : EnvInput) : List (String × String) :=
  [("sys.platform", env.platform),
   ("Python", env.pythonVersion),
   ("Numpy", env.numpyVersion),
   ("CUDA available", pyBoolStr env.cudaAvailable)]
  ++ (if env.cudaAvailable then gpuEntries env.deviceNames else [])
  ++ [("PyTorch", env.torchVersion)]
  ++ (match env.torchvisionVersion with
      | some v => [("TorchVision", v)]
      | none => [])
  ++ (match env.opencvVersion with
      | some v => [("OpenCV", v)]
      | none => [])

/-- Test whether a label starts with the three characters `GPU`. -/
def isGpuLabel (s : String) : Bool :=
  s.data.take 3 == "GPU".data

/-- Entries of `env_info` whose label is a `"GPU ..."` label. -/
def gpuLabelled (info : List (String × String)) : List (String × String) :=
  info.filter (fun e => isGpuLabel e.1)

/-- C1: a seed that is an integer in [0, 2^32-1] is used unchanged as
the resolved seed and no warning is logged; an absent (None) or
out-of-range seed is replaced by the drawn value - which
`random.randint(0, 2^32-1)` guarantees lies in [0, 2^32-1], modelled by
the hypothesis on `drawn` - with a warning naming the rejected value
and the replacement, and the replacement becomes the resolved seed. -/
theorem seed_resolution_c1 (i : Int) (drawn : Nat) (hd : drawn ≤ maxSeedValue) :
    ((0 ≤ i ∧ i ≤ (maxSeedValue : Int)) → resolveSeed (.pyInt i) drawn = .ok (i, [])) ∧
    (¬(0 ≤ i ∧ i ≤ (maxSeedValue : Int)) →
      resolveSeed (.pyInt i) drawn =
        .ok ((drawn : Int), [invalidSeedWarning (.pyInt i) drawn])) ∧
    resolveSeed .pyNone drawn = .ok ((drawn : Int), [invalidSeedWarning .pyNone drawn]) ∧
    0 ≤ (drawn : Int) ∧ (drawn : Int) ≤ (maxSeedValue : Int) := by
  refine ⟨fun h => ?_, fun h => ?_, rfl, Int.ofNat_nonneg drawn, by exact_mod_cast hd⟩
  · simp only [resolveSeed, minSeedValue, Nat.cast_zero]
    rw [if_pos h]
  · simp only [resolveSeed, minSeedValue, Nat.cast_zero]
    rw [if_neg h]

/-- Witness for C1 at seed 5 and drawn value 7. -/
theorem seed_resolution_c1_witness :
    resolveSeed (.pyInt 5) 7 = .ok (5, []) ∧
    resolveSeed .pyNone 7 = .ok (7, [invalidSeedWarning .pyNone 7]) := by
  have h := seed_resolution_c1 5 7 (by decide)
  exact ⟨h.1 (by decide), h.2.2.1⟩

/-- C3 counterexample: a non-integer seed (the string "abc") makes
`set_random_seed` raise `TypeError` at the chained range comparison,
so the call does not self-correct on every malformed input. -/
theorem seed_no_raise_c3_counterexample :
    set_random_seed (.pyStr "abc") false 0 initialState = .error .typeError := rfl

/-- Unfolding lemma: when seed resolution succeeds with resolved seed
`s`, `set_random_seed` returns the fully updated state. -/
theorem set_random_seed_eq (seed : SeedArg) (dt : Bool) (drawn : Nat) (st : GlobalState)
    (s : Int) (warnings : List String)
    (h : resolveSeed seed drawn = .ok (s, warnings)) :
    set_random_seed seed dt drawn st =
      .ok ({ randomSeed := some s, npSeed := some s, torchSeed := some s,
             pythonHashSeed := some (toString s),
             cudnnBenchmark := if dt then false else st.cudnnBenchmark,
             cudnnDeterministic := if dt then true else st.cudnnDeterministic }, warnings) := by
  unfold set_random_seed
  rw [h]
  cases dt <;> rfl

/-- Unfolding lemma: when seed resolution raises, `set_random_seed`
propagates the exception. -/
theorem set_random_seed_err (seed : SeedArg) (dt : Bool) (drawn : Nat) (st : GlobalState)
    (e : PyError) (h : resolveSeed seed drawn = .error e) :
    set_random_seed seed dt drawn st = .error e := by
  unfold set_random_seed
  rw [h]
  rfl

/-- Unfolding lemma: resolution of an in-range integer seed. -/
theorem resolveSeed_int_ok (i : Int) (drawn : Nat)
    (h : 0 ≤ i ∧ i ≤ (maxSeedValue : Int)) :
    resolveSeed (.pyInt i) drawn = .ok (i, []) := by
  simp only [resolveSeed, minSeedValue, Nat.cast_zero]
  rw [if_pos h]

/-- Unfolding lemma: resolution of an out-of-range integer seed. -/
theorem resolveSeed_int_bad (i : Int) (drawn : Nat)
    (h : ¬(0 ≤ i ∧ i ≤ (maxSeedValue : Int))) :
    resolveSeed (.pyInt i) drawn =
      .ok ((drawn : Int), [invalidSeedWarning (.pyInt i) drawn]) := by
  simp only [resolveSeed, minSeedValue, Nat.cast_zero]
  rw [if_neg h]

/-- C3 (amended): for every seed that is absent (None) or an integer -
including out-of-range integers - `set_random_seed` never raises; it
self-corrects via warning and fallback seed.  A non-integer seed
instead raises `TypeError` at the range comparison. -/
theorem seed_no_raise_c3_amended (seed : SeedArg) (dt : Bool) (drawn : Nat)
    (st : GlobalState) (h : seed.isIntOrNone = true) :
    ∃ r, set_random_seed seed dt drawn st = .ok r := by
  cases seed with
  | pyStr s => simp [SeedArg.isIntOrNone] at h
  | pyNone => exact ⟨_, set_random_seed_eq _ dt drawn st _ _ rfl⟩
  | pyInt i =>
    by_cases hc : 0 ≤ i ∧ i ≤ (maxSeedValue : Int)
    · exact ⟨_, set_random_seed_eq _ dt drawn st _ _ (resolveSeed_int_ok i drawn hc)⟩
    · exact ⟨_, set_random_seed_eq _ dt drawn st _ _ (resolveSeed_int_bad i drawn hc)⟩

/-- Witness for the amended C3 at the out-of-range seed -1. -/
theorem seed_no_raise_c3_witness :
    ∃ r, set_random_seed (.pyInt (-1)) false 3 initialState = .ok r :=
  seed_no_raise_c3_amended (.pyInt (-1)) false 3 initialState (by decide)

/-- C4: whenever `set_random_seed` returns normally, one single
resolved seed has been applied to the general-purpose, numeric-library
and tensor-library generators alike, and `PYTHONHASHSEED` holds the
decimal string of that same seed. -/
theorem seed_applied_uniformly_c4 (seed : SeedArg) (dt : Bool) (drawn : Nat)
    (st st' : GlobalState) (w : List String)
    (h : set_random_seed seed dt drawn st = .ok (st', w)) :
    ∃ r : Int, st'.randomSeed = some r ∧ st'.npSeed = some r ∧
      st'.torchSeed = some r ∧ st'.pythonHashSeed = some (toString r) := by
  cases hres : resolveSeed seed drawn with
  | error e =>
    rw [set_random_seed_err seed dt drawn st e hres] at h
    exact Except.noConfusion h
  | ok p =>
    obtain ⟨s, warnings⟩ := p
    rw [set_random_seed_eq seed dt drawn st s warnings hres] at h
    injection h with h1
    injection h1 with h2 h3
    subst h2
    exact ⟨s, rfl, rfl, rfl, rfl⟩

/-- Witness for C4 at seed 5 with deterministic mode on. -/
theorem seed_applied_uniformly_c4_witness :
    ∃ r : Int,
      (⟨some 5, some 5, some 5, some "5", false, true⟩ : GlobalState).randomSeed = some r ∧
      (⟨some 5, some 5, some 5, some "5", false, true⟩ : GlobalState).npSeed = some r ∧
      (⟨some 5, some 5, some 5, some "5", false, true⟩ : GlobalState).torchSeed = some r ∧
      (⟨some 5, some 5, some 5, some "5", false, true⟩ : GlobalState).pythonHashSeed =
        some (toString r) :=
  seed_applied_uniformly_c4 (.pyInt 5) true 7 initialState
    ⟨some 5, some 5, some 5, some "5", false, true⟩ [] rfl

/-- C5: when `set_random_seed` returns normally with deterministic=true
the cudnn benchmark flag is false and the cudnn deterministic flag is
true; with deterministic=false both flags keep their prior values. -/
theorem cudnn_flags_c5 (seed : SeedArg) (drawn : Nat) (st st1 st2 : GlobalState)
    (w1 w2 : List String) :
    (set_random_seed seed true drawn st = .ok (st1, w1) →
      st1.cudnnBenchmark = false ∧ st1.cudnnDeterministic = true) ∧
    (set_random_seed seed false drawn st = .ok (st2, w2) →
      st2.cudnnBenchmark = st.cudnnBenchmark ∧
      st2.cudnnDeterministic = st.cudnnDeterministic) := by
  constructor
  · intro h
    cases hres : resolveSeed seed drawn with
    | error e =>
      rw [set_random_seed_err seed true drawn st e hres] at h
      exact Except.noConfusion h
    | ok p =>
      obtain ⟨s, warnings⟩ := p
      rw [set_random_seed_eq seed true drawn st s warnings hres] at h
      injection h with h1
      injection h1 with h2 h3
      subst h2
      exact ⟨rfl, rfl⟩
  · intro h
    cases hres : resolveSeed seed drawn with
    | error e =>
      rw [set_random_seed_err seed false drawn st e hres] at h
      exact Except.noConfusion h
    | ok p =>
      obtain ⟨s, warnings⟩ := p
      rw [set_random_seed_eq seed false drawn st s warnings hres] at h
      injection h with h1
      injection h1 with h2 h3
      subst h2
      exact ⟨rfl, rfl⟩

/-- Witness for C5 at seed 5, for both values of the flag. -/
theorem cudnn_flags_c5_witness :
    ((⟨some 5, some 5, some 5, some "5", false, true⟩ : GlobalState).cudnnBenchmark = false ∧
      (⟨some 5, some 5, some 5, some "5", false, true⟩ : GlobalState).cudnnDeterministic = true) ∧
    ((⟨some 5, some 5, some 5, some "5", false, false⟩ : GlobalState).cudnnBenchmark =
        initialState.cudnnBenchmark ∧
      (⟨some 5, some 5, some 5, some "5", false, false⟩ : GlobalState).cudnnDeterministic =
        initialState.cudnnDeterministic) :=
  ⟨(cudnn_flags_c5 (.pyInt 5) 7 initialState
      ⟨some 5, some 5, some 5, some "5", false, true⟩
      ⟨some 5, some 5, some 5, some "5", false, false⟩ [] []).1 rfl,
   (cudnn_flags_c5 (.pyInt 5) 7 initialState
      ⟨some 5, some 5, some 5, some "5", false, true⟩
      ⟨some 5, some 5, some 5, some "5", false, false⟩ [] []).2 rfl⟩

/-- Helper: removing every entry at `dst` leaves nothing to look up
at `dst`. -/
theorem lookup_filter_ne (dst : String) (fs : FileSystem) :
    (fs.filter (fun e => e.1 != dst)).lookup dst = none := by
  induction fs with
  | nil => rfl
  | cons a l ih =>
    obtain ⟨k, v⟩ := a
    by_cases h : k = dst
    · have hb : (k != dst) = false := by simp [h]
      simp only [List.filter_cons, hb, Bool.false_eq_true, if_false]
      exact ih
    · have hb : (k != dst) = true := by simp [h]
      have hd : (dst == k) = false := by
        simp only [beq_eq_false_iff_ne, ne_eq]
        exact fun he => h he.symm
      simp only [List.filter_cons, hb, if_true, List.lookup, hd]
      exact ih

/-- C2 counterexample: with overwrite=true and the destination an
existing directory, `symlink` raises `IsADirectoryError` from
`os.remove` - the destination is neither removed nor replaced by a
symlink, contradicting the claim for directory destinations. -/
theorem symlink_overwrite_c2_counterexample :
    symlink "s" "d" true [("d", FSEntry.directory)] =
      (some OSError.isADirectoryError, [("d", FSEntry.directory)]) ∧
    (symlink "s" "d" true [("d", FSEntry.directory)]).2.lookup "d" ≠
      some (FSEntry.symlinkTo "s") := by
  exact ⟨rfl, by decide⟩

/-- C2 (amended): with overwrite=true and an existing destination that
is a regular file or a symlink (broken or not), the destination is
removed and a symlink to the source is created in its place; when the
existing destination is a directory, the call instead fails with
`IsADirectoryError` from the removal step and the filesystem is
unchanged. -/
theorem symlink_overwrite_c2_amended (src dst : String) (fs : FileSystem) :
    (∀ e, fs.lookup dst = some e → e ≠ FSEntry.directory →
      symlink src dst true fs =
        (none, fs.filter (fun x => x.1 != dst) ++ [(dst, FSEntry.symlinkTo src)])) ∧
    (fs.lookup dst = some FSEntry.directory →
      symlink src dst true fs = (some OSError.isADirectoryError, fs)) := by
  constructor
  · intro e he hne
    have hex : lexists fs dst = true := by simp [lexists, he]
    have hrem : osRemove fs dst = .ok (fs.filter (fun x => x.1 != dst)) := by
      unfold osRemove
      rw [he]
      cases e with
      | directory => exact absurd rfl hne
      | file => rfl
      | symlinkTo t => rfl
    have hlink : osSymlink (fs.filter (fun x => x.1 != dst)) src dst =
        .ok (fs.filter (fun x => x.1 != dst) ++ [(dst, FSEntry.symlinkTo src)]) := by
      unfold osSymlink
      rw [if_neg]
      simp [lexists, lookup_filter_ne]
    have hcond : (lexists fs dst && true) = true := by rw [hex]; rfl
    unfold symlink
    rw [if_pos hcond]
    simp only [hrem, hlink]
  · intro he
    have hex : lexists fs dst = true := by simp [lexists, he]
    have hrem : osRemove fs dst = .error .isADirectoryError := by
      unfold osRemove
      rw [he]
    have hcond : (lexists fs dst && true) = true := by rw [hex]; rfl
    unfold symlink
    rw [if_pos hcond]
    simp only [hrem]

/-- Witness for the amended C2: overwriting an existing regular file. -/
theorem symlink_overwrite_c2_witness :
    symlink "s" "d" true [("d", FSEntry.file)] =
      (none, [("d", FSEntry.symlinkTo "s")]) := by
  have h := (symlink_overwrite_c2_amended "s" "d" [("d", FSEntry.file)]).1
    FSEntry.file (by decide) (by decide)
  simpa using h

/-- C6: with overwrite=false and an existing destination (any entry
kind), `symlink` fails with `FileExistsError` propagated from
`os.symlink`, and the filesystem - in particular the destination - is
left unchanged, no removal having been performed. -/
theorem symlink_no_overwrite_c6 (src dst : String) (fs : FileSystem)
    (h : lexists fs dst = true) :
    symlink src dst false fs = (some OSError.fileExistsError, fs) := by
  unfold symlink
  rw [h]
  simp only [Bool.and_false, Bool.false_eq_true, if_false]
  unfold osSymlink
  rw [if_pos h]

/-- Witness for C6: destination exists as a regular file. -/
theorem symlink_no_overwrite_c6_witness :
    symlink "s" "d" false [("d", FSEntry.file)] =
      (some OSError.fileExistsError, [("d", FSEntry.file)]) :=
  symlink_no_overwrite_c6 "s" "d" [("d", FSEntry.file)] (by decide)

/-- C7: on the empty dict `create_small_table` fails (unpacking the
result of `zip()` raises `ValueError`) rather than returning a string;
on every dict with at least one entry the unzipping step succeeds,
yielding the keys and the values in order. -/
theorem small_table_empty_c7 :
    create_small_table [] = .error .valueError ∧
    ∀ d : PyDict, d ≠ [] →
      unzipPairs d = .ok (d.map Prod.fst, d.map Prod.snd) := by
  refine ⟨rfl, fun d hd => ?_⟩
  cases d with
  | nil => exact absurd rfl hd
  | cons a l => rfl

/-- Witness for C7 at a one-entry dict. -/
theorem small_table_empty_c7_witness :
    unzipPairs [("a", PyScalar.int 1)] = .ok (["a"], [PyScalar.int 1]) :=
  small_table_empty_c7.2 [("a", PyScalar.int 1)] (by decide)

/-- C8: every non-empty dict is rendered as the pipe-format table whose
header cells are the keys in the dict's iteration order and whose
single data row holds the corresponding values in the same order,
floats rendered with exactly 3 decimal places and every cell centred;
in particular the dict assigning 0.5 to "AP" and 0.8 to "AP50" renders
with both keys as headers over the centred cells "0.500" and
"0.800". -/
theorem small_table_format_c8 (d : PyDict) (hd : d ≠ []) :
    create_small_table d =
      .ok (tabulatePipe (d.map Prod.fst) ((d.map Prod.snd).map renderCell)) ∧
    create_small_table [("AP", .float (1/2)), ("AP50", .float (4/5))] =
      .ok ("|  AP   | AP50  |" ++ "\n" ++ "|:-----:|:-----:|" ++ "\n" ++
        "| 0.500 | 0.800 |") := by
  constructor
  · cases d with
    | nil => exact absurd rfl hd
    | cons a l => rfl
  · have h05 : format3f (1/2) = "0.500" := by
      have hq : ¬((1 : Rat)/2 < 0) := by norm_num
      have hf : (⌊(1 : Rat)/2 * 1000 + 1/2⌋ : Int) = 500 := by norm_num
      unfold format3f
      rw [if_neg hq, hf]
      decide
    have h08 : format3f (4/5) = "0.800" := by
      have hq : ¬((4 : Rat)/5 < 0) := by norm_num
      have hf : (⌊(4 : Rat)/5 * 1000 + 1/2⌋ : Int) = 800 := by norm_num
      unfold format3f
      rw [if_neg hq, hf]
      decide
    show Except.ok (tabulatePipe ["AP", "AP50"] [format3f (1/2), format3f (4/5)]) = _
    rw [h05, h08]
    exact congrArg Except.ok (by decide)

/-- Witness for C8 at the two-entry dict from the spec. -/
theorem small_table_format_c8_witness :
    create_small_table [("AP", PyScalar.float (1/2)), ("AP50", PyScalar.float (4/5))] =
      .ok (tabulatePipe ["AP", "AP50"] [format3f (1/2), format3f (4/5)]) :=
  (small_table_format_c8 [("AP", PyScalar.float (1/2)), ("AP50", PyScalar.float (4/5))]
    (by decide)).1

/-- C10: running `create_small_table` leaves the caller's dict exactly
as it was - the items are only read - and on a non-empty dict the call
returns a string. -/
theorem small_table_pure_c10 (d : PyDict) (hd : d ≠ []) :
    (create_small_table_run d).2 = d ∧
    ∃ s, (create_small_table_run d).1 = .ok s := by
  cases d with
  | nil => exact absurd rfl hd
  | cons a l => exact ⟨rfl, _, rfl⟩

/-- Witness for C10 at a one-entry dict. -/
theorem small_table_pure_c10_witness :
    (create_small_table_run [("a", PyScalar.int 1)]).2 = [("a", PyScalar.int 1)] ∧
    ∃ s, (create_small_table_run [("a", PyScalar.int 1)]).1 = .ok s :=
  small_table_pure_c10 [("a", PyScalar.int 1)] (by decide)

/-- Helper: `addDevice` leaves the sequence of names unchanged when the
name is already a key, and appends the name at the end otherwise. -/
theorem addDevice_keys (devices : List (String × List String)) (name id : String) :
    (addDevice devices name id).map Prod.fst =
      if devices.any (fun p => p.1 == name) then devices.map Prod.fst
      else devices.map Prod.fst ++ [name] := by
  unfold addDevice
  by_cases h : devices.any (fun p => p.1 == name) = true
  · rw [if_pos h, if_pos h, List.map_map]
    have hc : (Prod.fst ∘ fun p : String × List String =>
        if p.1 == name then (p.1, p.2 ++ [id]) else p) = Prod.fst := by
      funext p
      by_cases hp : p.1 = name <;> simp [hp]
    rw [hc]
  · rw [if_neg h, if_neg h, List.map_append]
    rfl

/-- Helper: `addDevice` keeps the device names free of duplicates. -/
theorem addDevice_nodup (devices : List (String × List String)) (name id : String)
    (h : (devices.map Prod.fst).Nodup) :
    ((addDevice devices name id).map Prod.fst).Nodup := by
  rw [addDevice_keys]
  by_cases ha : devices.any (fun p => p.1 == name) = true
  · rw [if_pos ha]; exact h
  · rw [if_neg ha]
    have hn : name ∉ devices.map Prod.fst := by
      intro hmem
      apply ha
      rw [List.any_eq_true]
      obtain ⟨p, hp, hfst⟩ := List.mem_map.mp hmem
      exact ⟨p, hp, by simp [hfst]⟩
    simp [List.nodup_append, h, hn]

/-- Helper: the device grouping never repeats a device name, so devices
sharing a name are merged into one entry. -/
theorem collectDevices_nodup (names : List String) :
    ((collectDevices names).map Prod.fst).Nodup := by
  suffices h : ∀ (l : List (Nat × String)) (acc : List (String × List String)),
      (acc.map Prod.fst).Nodup →
      ((l.foldl (fun acc p => addDevice acc p.2 (toString p.1)) acc).map Prod.fst).Nodup by
    exact h names.enum [] (by simp)
  intro l
  induction l with
  | nil => intro acc h; exact h
  | cons a l ih => intro acc h; exact ih _ (addDevice_nodup _ _ _ h)

/-- Helper: two devices with the same name are grouped under one key
holding both indices. -/
theorem collectDevices_pair (name : String) :
    collectDevices [name, name] = [(name, ["0", "1"])] := by
  have t0 : toString (0 : Nat) = "0" := by decide
  have t1 : toString (1 : Nat) = "1" := by decide
  show addDevice (addDevice [] name (toString 0)) name (toString 1) = _
  rw [t0, t1]
  show addDevice [(name, ["0"])] name "1" = _
  unfold addDevice
  rw [if_pos (by simp : ([(name, ["0"])].any fun p => p.1 == name) = true)]
  simp

/-- C9: when CUDA is unavailable, `env_info` holds no `"GPU"` entry;
when it is available and the two devices share one name, they are
merged into the single entry labelled `"GPU 0,1"`; and in general the
grouping produces one entry per distinct device name. -/
theorem collect_env_gpu_c9 (env : EnvInput) (name : String) :
    (env.cudaAvailable = false → gpuLabelled (collect_env_info env) = []) ∧
    (env.cudaAvailable = true → env.deviceNames = [name, name] →
      gpuLabelled (collect_env_info env) = [("GPU 0,1", name)]) ∧
    ∀ names : List String, ((collectDevices names).map Prod.fst).Nodup := by
  have f1 : isGpuLabel "sys.platform" = false := by decide
  have f2 : isGpuLabel "Python" = false := by decide
  have f3 : isGpuLabel "Numpy" = false := by decide
  have f4 : isGpuLabel "CUDA available" = false := by decide
  have f5 : isGpuLabel "PyTorch" = false := by decide
  have f6 : isGpuLabel "TorchVision" = false := by decide
  have f7 : isGpuLabel "OpenCV" = false := by decide
  have fg : isGpuLabel "GPU 0,1" = true := by decide
  have hi : "GPU " ++ String.intercalate "," ["0", "1"] = "GPU 0,1" := by decide
  refine ⟨?_, ?_, collectDevices_nodup⟩
  · intro h
    obtain ⟨pf, py, npv, cuda, dns, tv, tvv, cvv, cfg⟩ := env
    cases h
    cases tvv <;> cases cvv <;>
      simp [gpuLabelled, collect_env_info, List.filter_append, List.filter_cons,
        f1, f2, f3, f4, f5, f6, f7]
  · intro h hdev
    obtain ⟨pf, py, npv, cuda, dns, tv, tvv, cvv, cfg⟩ := env
    cases h
    cases hdev
    cases tvv <;> cases cvv <;>
      simp [gpuLabelled, collect_env_info, gpuEntries, collectDevices_pair,
        List.filter_append, List.filter_cons, f1, f2, f3, f4, f5, f6, f7, fg, hi]

/-- Witness for C9: a CUDA-less environment yields no GPU entry, and an
environment with two devices named "A100" yields the single merged
entry. -/
theorem collect_env_gpu_c9_witness :
    gpuLabelled (collect_env_info
      ⟨"linux", "3.9", "1.21", false, [], "1.10", none, none, "cfg"⟩) = [] ∧
    gpuLabelled (collect_env_info
      ⟨"linux", "3.9", "1.21", true, ["A100", "A100"], "1.10", none, none, "cfg"⟩) =
      [("GPU 0,1", "A100")] :=
  ⟨(collect_env_gpu_c9
      ⟨"linux", "3.9", "1.21", false, [], "1.10", none, none, "cfg"⟩ "A100").1 rfl,
   (collect_env_gpu_c9
      ⟨"linux", "3.9", "1.21", true, ["A100", "A100"], "1.10", none, none, "cfg"⟩
      "A100").2.1 rfl rfl⟩
